import Mathlib

/-!
Shallow embedding of the session-reconciliation and progress-sync core of the
CED e-learning single-page application (App.tsx and StudentDashboard.tsx),
with theorems checking the natural-language specification against it.

JavaScript conventions modelled explicitly:
* `a || b` on strings is falsy-fallback: `none` and `some ""` both fall through;
* `record[key]` lookup that may miss is `Option`;
* `Math.round` on a non-negative quotient of small integers is modelled as
  exact rational round-half-up (floating-point error is out of scope);
* a `try`/`catch` whose catch only logs is a function returning the unchanged
  state plus a list of log messages.
-/

namespace CED

/-- JS string truthiness: `undefined`/`null` and the empty string are falsy. -/
def jsTruthyStr (x : Option String) : Bool :=
  match x with
  | some s => s ≠ ""
  | none => false

/-- JS `x || d` for an optional string `x` and a string default `d`. -/
def jsOrStr (x : Option String) (d : String) : String :=
  match x with
  | some s => if s = "" then d else s
  | none => d

/-- Characters before the first `@` of a character list. -/
def emailLocalChars : List Char → List Char
  | [] => []
  | c :: cs => if c == '@' then [] else c :: emailLocalChars cs

/-- JS `email.split('@')[0]`: everything before the first `@`
(the whole string when there is no `@`). -/
def emailLocal (e : String) : String :=
  ⟨emailLocalChars e.data⟩

/-- App.tsx line 139: `profile?.role || (session.user.user_metadata?.role) || 'student'`. -/
def deriveRole (profileRole metaRole : Option String) : String :=
  jsOrStr profileRole (jsOrStr metaRole "student")

/-- App.tsx line 140:
`profile?.full_name || session.user.user_metadata?.name || session.user.email?.split('@')[0] || 'User'`. -/
def deriveName (fullName metaName email : Option String) : String :=
  jsOrStr fullName (jsOrStr metaName (jsOrStr (email.map emailLocal) "User"))

/-- Modelled from the spec (§3, §8.1): role precedence with `Option`-level
presence — profile.role if present, else metadata.role, else `student`. -/
def roleSpec (profileRole metaRole : Option String) : String :=
  match profileRole with
  | some r => r
  | none =>
    match metaRole with
    | some r => r
    | none => "student"

/-- Modelled from the spec (§3, §8.1): name precedence with `Option`-level
presence — profile.full_name, else metadata.name, else the email's
local part, else the literal `User`. -/
def nameSpec (fullName metaName email : Option String) : String :=
  match fullName with
  | some s => s
  | none =>
    match metaName with
    | some s => s
    | none =>
      match email with
      | some e => emailLocal e
      | none => "User"

/-! ## Session Reconciler data model (App.tsx) -/

/-- The auth-provider session user: `session.user` with the fields the app
reads. `emailConfirmedAt` is `new Date(email_confirmed_at).getTime()` when the
timestamp is present. -/
structure SessionUser where
  id : String
  email : Option String
  metaRole : Option String
  metaName : Option String
  emailConfirmedAt : Option Int
deriving DecidableEq, Repr

/-- A row of the `profiles` table as `fetchProfile` returns it (all columns
nullable per the schema); `fetchProfile` yields `none` on any error. -/
structure Profile where
  full_name : Option String
  role : Option String
  avatar_url : Option String
deriving DecidableEq, Repr

/-- The application-level identity (`User` in types.ts / `CurrentUser` in the
spec). -/
structure CurrentUser where
  id : String
  name : String
  email : String
  role : String
  avatar : Option String
deriving DecidableEq, Repr

/-- A state write committed by the reconciler, in program order. -/
inductive AuthWrite where
  | setShowEmailConfirmation : Bool → AuthWrite
  | clearUrlHash : AuthWrite
  | setCurrentUser : Option CurrentUser → AuthWrite
  | setAuthMode : String → AuthWrite
  | removePendingConfirmation : AuthWrite
deriving DecidableEq, Repr

/-- Does a write commit an identity object? -/
def AuthWrite.isSetCurrentUser : AuthWrite → Bool
  | AuthWrite.setCurrentUser _ => true
  | _ => false

/-- Outcome of `Promise.race([sessionPromise, timeoutPromise])`:
either `getSession` resolved first (possibly with a null session), or the
2-second timeout fired / the probe threw. -/
inductive ProbeOutcome where
  | resolved : Option SessionUser → ProbeOutcome
  | timeout : ProbeOutcome
deriving DecidableEq, Repr

/-- Result of one run of `initializeAuth`: the state writes it committed (in
order) and whether the 100 ms email-confirmation settle delay was taken. -/
structure InitResult where
  writes : List AuthWrite
  delayed : Bool
deriving DecidableEq, Repr

/-- App.tsx lines 142-148 / 233-239: build the `CurrentUser` committed by
`setCurrentUser` from the session user and the (possibly absent) profile. -/
def resolveIdentity (u : SessionUser) (profile : Option Profile) : CurrentUser :=
  { id := u.id
    name := deriveName (profile.bind Profile.full_name) u.metaName u.email
    email := jsOrStr u.email ""
    role := deriveRole (profile.bind Profile.role) u.metaRole
    avatar := profile.bind Profile.avatar_url }

/-- App.tsx lines 93-156, `initializeAuth`. Inputs: the URL-fragment
parameters `type` and `access_token`, the race outcome, the `fetchProfile`
result, `Date.now()`, and the value the `cancelled` flag holds at each of the
three post-await checks (lines 109, 116, 137). The probe failure path
(timeout or thrown error) only logs. -/
def initializeAuth (hashType hashAccessToken : Option String)
    (probe : ProbeOutcome) (profileResult : Option Profile) (now : Int)
    (c1 c2 c3 : Bool) : InitResult :=
  let isEmailConfirmation :=
    hashType == some "signup" || hashType == some "email" ||
      (jsTruthyStr hashAccessToken && jsTruthyStr hashType)
  match probe with
  | ProbeOutcome.timeout => { writes := [], delayed := false }
  | ProbeOutcome.resolved session =>
    if c1 then { writes := [], delayed := false }
    else
      let delayed := isEmailConfirmation && session.isSome
      if c2 then { writes := [], delayed := delayed }
      else
        match session with
        | none => { writes := [], delayed := delayed }
        | some u =>
          let emailJustConfirmed :=
            hashType == some "signup" || hashType == some "email" ||
              (match u.emailConfirmedAt with
               | some t => decide (t > now - 60000)
               | none => false)
          if emailJustConfirmed then
            { writes := [AuthWrite.setShowEmailConfirmation true, AuthWrite.clearUrlHash]
              delayed := delayed }
          else
            if c3 then { writes := [], delayed := delayed }
            else
              { writes := [AuthWrite.setCurrentUser (some (resolveIdentity u profileResult))]
                delayed := delayed }

/-- Modelled from the spec / claim C7: the confirmation markers checked on the
initial probe — URL fragment `type=signup` or `type=email`, or
`email_confirmed_at` within the last 60 seconds. -/
def confirmMarkerSpec (hashType : Option String) (confirmedAt : Option Int)
    (now : Int) : Bool :=
  hashType == some "signup" || hashType == some "email" ||
    (match confirmedAt with
     | some t => decide (t > now - 60000)
     | none => false)

/-! ## The auth `useEffect` body and the session-change handler (App.tsx) -/

/-- One observable statement of the auth `useEffect` body, in source order. -/
inductive EffStmt where
  | scheduleInitViaIdleCallback
  | scheduleInitViaTimeout
  | subscribeAuthStateChange
  | ret
deriving DecidableEq, Repr

/-- What the effect body has done by the time it finishes. -/
structure EffectRun where
  scheduledInitialize : Bool
  subscribed : Bool
  returned : Bool
deriving DecidableEq, Repr

/-- App.tsx lines 158-259 in source order: the `requestIdleCallback` branch
(schedule `initializeAuth`, then `return` a cleanup) or the `setTimeout`
branch (likewise), followed by the `onAuthStateChange` subscription and the
`return () => subscription.unsubscribe()` that textually follow them. -/
def authEffectBody (hasRequestIdleCallback : Bool) : List EffStmt :=
  (if hasRequestIdleCallback then
    [EffStmt.scheduleInitViaIdleCallback, EffStmt.ret]
  else
    [EffStmt.scheduleInitViaTimeout, EffStmt.ret])
  ++ [EffStmt.subscribeAuthStateChange, EffStmt.ret]

/-- Execute a statement list with JS `return` semantics: execution stops at
the first `return`. -/
def runEff : List EffStmt → EffectRun → EffectRun
  | [], st => st
  | EffStmt.ret :: _, st => { st with returned := true }
  | EffStmt.subscribeAuthStateChange :: rest, st =>
      runEff rest { st with subscribed := true }
  | EffStmt.scheduleInitViaIdleCallback :: rest, st =>
      runEff rest { st with scheduledInitialize := true }
  | EffStmt.scheduleInitViaTimeout :: rest, st =>
      runEff rest { st with scheduledInitialize := true }

/-- App.tsx lines 183-257: the `onAuthStateChange` callback. Inputs mirror
everything the handler reads: the event name, the session, the current
`showEmailConfirmation` flag, the URL-fragment parameters, the
`pending_email_confirmation` localStorage entry, the `fetchProfile` result,
whether the profile fetch threw (the defensive catch at line 240), and
`Date.now()`. Returns the state writes in order. -/
def onAuthStateChange (event : String) (session : Option SessionUser)
    (showEmailConfirmation : Bool) (hashType hashAccessToken : Option String)
    (pendingConfirmation : Option String) (profileResult : Option Profile)
    (profileFetchThrew : Bool) (now : Int) : List AuthWrite :=
  match session with
  | some u =>
    let signedInConfirmed :=
      event == "SIGNED_IN" &&
        (hashType == some "signup" || hashType == some "email" ||
          (jsTruthyStr hashAccessToken && jsTruthyStr hashType) ||
          (match u.emailConfirmedAt with
           | some t => decide (t > now - 120000)
           | none => false) ||
          (match pendingConfirmation, u.email with
           | some p, some e => p == e
           | _, _ => false))
    if signedInConfirmed then
      [AuthWrite.removePendingConfirmation,
       AuthWrite.setShowEmailConfirmation true, AuthWrite.clearUrlHash]
    else
      let tokenRefreshConfirmed :=
        event == "TOKEN_REFRESHED" &&
          (hashType == some "signup" || hashType == some "email" ||
            (jsTruthyStr hashAccessToken && jsTruthyStr hashType))
      if tokenRefreshConfirmed then
        [AuthWrite.removePendingConfirmation,
         AuthWrite.setShowEmailConfirmation true, AuthWrite.clearUrlHash]
      else
        if !showEmailConfirmation then
          if profileFetchThrew then
            [AuthWrite.setCurrentUser (some
              { id := u.id
                name := deriveName none u.metaName u.email
                email := jsOrStr u.email ""
                role := deriveRole none u.metaRole
                avatar := none })]
          else
            [AuthWrite.setCurrentUser (some (resolveIdentity u profileResult))]
        else
          [AuthWrite.setCurrentUser none, AuthWrite.setAuthMode "login"]
  | none =>
    [AuthWrite.setCurrentUser none, AuthWrite.setAuthMode "login"]

/-! ## Sign-out (App.tsx lines 308-321) -/

/-- Outcome of the remote `supabase.auth.signOut()` call. -/
inductive SignOutResult where
  | ok
  | errResult
  | thrown
deriving DecidableEq, Repr

/-- The local auth state `handleLogout` touches. -/
structure LocalAuthState where
  currentUser : Option CurrentUser
  authMode : String
deriving DecidableEq, Repr

/-- App.tsx `handleLogout`: try the remote sign-out, log on an error result or
a thrown exception, and in the `finally` block always clear the local state.
Returns the new state and the error-log entries. -/
def handleLogout (st : LocalAuthState) (r : SignOutResult) :
    LocalAuthState × List String :=
  let logs :=
    match r with
    | SignOutResult.ok => []
    | SignOutResult.errResult => ["Error signing out"]
    | SignOutResult.thrown => ["Unexpected error during sign out"]
  ({ st with currentUser := none, authMode := "login" }, logs)

/-! ## Progress Synchronizer data model (StudentDashboard.tsx, types.ts) -/

/-- A value of the local progress map: `boolean | number`
(boolean for video completion, number for a quiz score). -/
inductive PVal where
  | bool : Bool → PVal
  | num : Nat → PVal
deriving DecidableEq, Repr

/-- JS truthiness of a possibly-missing progress value: used by every
completion check (`!!progress[c]?.[l]`) and completion filter. -/
def pvalTruthy : Option PVal → Bool
  | none => false
  | some (PVal.bool b) => b
  | some (PVal.num n) => n ≠ 0

/-- The per-course progress map `{ [lessonId]: boolean | number }`. -/
abbrev CourseProgress := List (String × PVal)

/-- The local `StudentProgress` state `{ [courseId]: { [lessonId]: ... } }`. -/
abbrev StudentProgress := List (String × CourseProgress)

/-- `progress[courseId]?.[lessonId]`. -/
def lookupProgress (p : StudentProgress) (courseId lessonId : String) :
    Option PVal :=
  (p.lookup courseId).bind (fun cp => cp.lookup lessonId)

/-- JS object-spread key update `{ ...m, [k]: v }`, modelled up to lookup:
the new binding shadows any previous one, all other keys are unchanged. -/
def setAssoc {α : Type} (m : List (String × α)) (k : String) (v : α) :
    List (String × α) :=
  (k, v) :: m.filter (fun e => !(e.1 == k))

/-- `setProgress(prev => ({ ...prev, [courseId]: { ...prev[courseId], [lessonId]: v } }))`. -/
def setLocalProgress (p : StudentProgress) (courseId lessonId : String)
    (v : PVal) : StudentProgress :=
  setAssoc p courseId (setAssoc ((p.lookup courseId).getD []) lessonId v)

/-- A row of the remote `student_progress` table. -/
structure DBRow where
  id : Nat
  user_id : String
  course_id : String
  lesson_id : String
  completed : Bool
  score : Nat
  updated_at : Nat
deriving DecidableEq, Repr

/-- The remote `student_progress` store: the rows plus the next identity value
the store will assign on insert. -/
structure ProgressDB where
  nextId : Nat
  rows : List DBRow
deriving DecidableEq, Repr

/-- Does a row match the unique key `(user_id, course_id, lesson_id)`? -/
def keyMatches (r : DBRow) (u c l : String) : Bool :=
  r.user_id == u && r.course_id == c && r.lesson_id == l

/-- The `.select('id')...single()` existence probe: `data` is the single
matching row's id, and `null` when zero or several rows match. -/
def selectSingleId (db : ProgressDB) (u c l : String) : Option Nat :=
  match db.rows.filter (fun r => keyMatches r u c l) with
  | [r] => some r.id
  | _ => none

/-- StudentDashboard `saveProgressToDB` (successful remote path): look up an
existing row by the unique key; if found, update its `completed`/`score`/
`updated_at`; otherwise insert a new row. -/
def saveProgressToDB (db : ProgressDB) (u c l : String) (completed : Bool)
    (score : Nat) (now : Nat) : ProgressDB :=
  match selectSingleId db u c l with
  | some i =>
    { db with rows := db.rows.map (fun r =>
        if r.id == i then
          { r with completed := completed, score := score, updated_at := now }
        else r) }
  | none =>
    { nextId := db.nextId + 1
      rows := db.rows ++
        [{ id := db.nextId, user_id := u, course_id := c, lesson_id := l
           completed := completed, score := score, updated_at := now }] }

/-- `saveProgressToDB` with its surrounding `try`/`catch`: on a remote
failure the catch only logs (`console.error`), leaving the store untouched. -/
def saveProgressFallible (db : ProgressDB) (u c l : String) (completed : Bool)
    (score : Nat) (now : Nat) (fails : Bool) : ProgressDB × List String :=
  if fails then (db, ["Error saving progress"])
  else (saveProgressToDB db u c l completed score now, [])

/-- Number of rows holding the unique key. -/
def countKey (db : ProgressDB) (u c l : String) : Nat :=
  (db.rows.filter (fun r => keyMatches r u c l)).length

/-- StudentDashboard `toggleComplete`: read the current truthiness, flip it,
apply the optimistic local update first, then fire the remote write (which may
fail; failure is only logged). Returns (local progress, remote store, logs). -/
def toggleComplete (p : StudentProgress) (db : ProgressDB)
    (u courseId lessonId : String) (now : Nat) (fails : Bool) :
    StudentProgress × ProgressDB × List String :=
  let isCompleted := pvalTruthy (lookupProgress p courseId lessonId)
  let newStatus := !isCompleted
  let p1 := setLocalProgress p courseId lessonId (PVal.bool newStatus)
  let r := saveProgressFallible db u courseId lessonId newStatus 0 now fails
  (p1, r.1, r.2)

/-! ## Quiz lessons and scoring -/

/-- A quiz question (types.ts `Question`). -/
structure Question where
  id : String
  text : String
  options : List String
  correctOptionIndex : Nat
deriving DecidableEq, Repr

/-- A quiz payload (types.ts `Quiz`, the fields the scoring logic reads). -/
structure Quiz where
  questions : List Question
deriving DecidableEq, Repr

/-- A lesson (types.ts `Lesson`, the fields the progress logic reads). -/
structure Lesson where
  id : String
  type : String
  quizData : Option Quiz
deriving DecidableEq, Repr

/-- A course (types.ts `Course`, the fields the progress logic reads). -/
structure Course where
  id : String
  lessons : List Lesson
deriving DecidableEq, Repr

/-- The `quizAnswers` record `{ [questionId]: optionIndex }`. -/
abbrev Answers := List (String × Nat)

/-- StudentDashboard `handleQuizSubmit` counting loop: a question counts
exactly when `quizAnswers[q.id] === q.correctOptionIndex` (a missing answer
is `undefined` and never equal). -/
def correctCount (ans : Answers) (qs : List Question) : Nat :=
  (qs.filter (fun q => ans.lookup q.id == some q.correctOptionIndex)).length

/-- `Math.round((c / t) * 100)` for naturals `c ≤ t`, in exact arithmetic:
round-half-up of `100 * c / t`. -/
def jsRound100 (c t : Nat) : Nat :=
  (200 * c + t) / (2 * t)

/-- Effects of one `handleQuizSubmit` run: the updated local progress and
remote store, the logs, and the `quizScore`/`quizSubmitted` component state.
`none` models the `if (!lesson.quizData) return` early exit (no effects). -/
structure QuizSubmitResult where
  progress : StudentProgress
  db : ProgressDB
  logs : List String
  quizScore : Nat
  quizSubmitted : Bool
deriving DecidableEq, Repr

/-- StudentDashboard `handleQuizSubmit`: score the answers, set the component
quiz state, store the numeric score in the local progress map (optimistic,
before the remote write), then upsert `(completed := true, score)` remotely;
a remote failure is only logged. -/
def handleQuizSubmit (p : StudentProgress) (db : ProgressDB)
    (u courseId : String) (lesson : Lesson) (ans : Answers) (now : Nat)
    (fails : Bool) : Option QuizSubmitResult :=
  match lesson.quizData with
  | none => none
  | some quiz =>
    let score := jsRound100 (correctCount ans quiz.questions)
      quiz.questions.length
    let p1 := setLocalProgress p courseId lesson.id (PVal.num score)
    let r := saveProgressFallible db u courseId lesson.id true score now fails
    some { progress := p1, db := r.1, logs := r.2
           quizScore := score, quizSubmitted := true }

/-! ## Aggregate completion and reload mapping -/

/-- `course.lessons.filter(l => progress[course.id]?.[l.id]).length`. -/
def completedLessons (course : Course) (p : StudentProgress) : Nat :=
  (course.lessons.filter
    (fun l => pvalTruthy (lookupProgress p course.id l.id))).length

/-- StudentDashboard course-details / learning-view `progressPercent`:
`lessons.length > 0 ? Math.round((completed / total) * 100) : 0`. -/
def progressPercent (course : Course) (p : StudentProgress) : Nat :=
  if course.lessons.length > 0 then
    jsRound100 (completedLessons course p) course.lessons.length
  else 0

/-- StudentDashboard `fetchUserData` row mapping:
`row.score > 0 ? row.score : row.completed`. -/
def fetchRowValue (row : DBRow) : PVal :=
  if row.score > 0 then PVal.num row.score else PVal.bool row.completed

/-- StudentDashboard `fetchUserData`: rebuild the local progress map from the
fetched `student_progress` rows. -/
def fetchUserDataProgress (rows : List DBRow) : StudentProgress :=
  rows.foldl
    (fun acc row =>
      setLocalProgress acc row.course_id row.lesson_id (fetchRowValue row))
    []

/-- Modelled from the spec (§4.2): a question is correct exactly when the
answer recorded for its id equals its `correctOptionIndex`; a question with no
recorded answer never counts. -/
def correctCountSpec (ans : Answers) (qs : List Question) : Nat :=
  (qs.filter (fun q =>
    match ans.lookup q.id with
    | some a => a == q.correctOptionIndex
    | none => false)).length

/-- The spec's §8.4 example: a 4-question quiz with correct indices
`[0, 1, 2, 3]`. -/
def quiz4 : Quiz :=
  { questions :=
      [{ id := "q1", text := "", options := [], correctOptionIndex := 0 },
       { id := "q2", text := "", options := [], correctOptionIndex := 1 },
       { id := "q3", text := "", options := [], correctOptionIndex := 2 },
       { id := "q4", text := "", options := [], correctOptionIndex := 3 }] }

/-! ## Helper lemmas -/

/-- A JS falsy-fallback chain with a non-empty final default never yields the
empty string. -/
theorem jsOrStr_ne (x : Option String) (d : String) (hd : d ≠ "") :
    jsOrStr x d ≠ "" := by
  cases x with
  | none => simpa [jsOrStr] using hd
  | some s =>
    simp only [jsOrStr]
    split
    · exact hd
    · assumption

/-- `Math.round((c / t) * 100)` in exact arithmetic agrees with the rational
round-half-up of `100 * c / t`. -/
theorem jsRound100_eq_round (c t : Nat) (h : t ≠ 0) :
    (jsRound100 c t : ℤ) = round ((100 * (c : ℚ)) / (t : ℚ)) := by
  have ht : (t : ℚ) ≠ 0 := Nat.cast_ne_zero.mpr h
  rw [round_eq]
  have heq : (100 * (c : ℚ)) / (t : ℚ) + 1 / 2
      = (((200 * c + t : ℕ) : ℤ) : ℚ) / ((2 * t : ℕ) : ℚ) := by
    push_cast
    field_simp
    ring
  rw [heq, Rat.floor_intCast_div_natCast]
  simp only [jsRound100]
  exact Int.natCast_ediv (200 * c + t) (2 * t)

/-- Filtering commutes with mapping a function that preserves the predicate. -/
theorem filter_map_pres {α : Type} (g : α → α) (p : α → Bool)
    (h : ∀ r, p (g r) = p r) (L : List α) :
    (L.map g).filter p = (L.filter p).map g := by
  induction L with
  | nil => rfl
  | cons a L ih =>
    simp only [List.map_cons, List.filter_cons, h a]
    split
    · simp [ih]
    · exact ih

/-- The row update performed by `saveProgressToDB` never changes the unique
key of any row. -/
theorem keyMatches_save_update (r : DBRow) (i : Nat) (b : Bool)
    (s n : Nat) (u c l : String) :
    keyMatches
      (if r.id == i then
        { r with completed := b, score := s, updated_at := n }
      else r) u c l = keyMatches r u c l := by
  cases hid : (r.id == i) <;> simp [hid, keyMatches]

/-- A freshly inserted row matches its own key. -/
theorem keyMatches_new (i : Nat) (u c l : String) (b : Bool) (s n : Nat) :
    keyMatches
      { id := i, user_id := u, course_id := c, lesson_id := l
        completed := b, score := s, updated_at := n } u c l = true := by
  simp [keyMatches]

/-! ## Claim theorems -/

/-- C1: Identity derivation precedence — for every combination of profile
record and auth-provider metadata (present meaning a truthy, non-empty value),
the resolved role is profile.role, else metadata.role, else `student`, and the
resolved name is profile.full_name, else metadata.name, else the email's local
part, else `User`; and role and name are never empty even when every source is
absent. -/
theorem identity_derivation_precedence
    (profileRole metaRole fullName metaName email : Option String)
    (hpr : ∀ s, profileRole = some s → s ≠ "")
    (hmr : ∀ s, metaRole = some s → s ≠ "")
    (hfn : ∀ s, fullName = some s → s ≠ "")
    (hmn : ∀ s, metaName = some s → s ≠ "")
    (hem : ∀ s, email = some s → emailLocal s ≠ "") :
    deriveRole profileRole metaRole = roleSpec profileRole metaRole
    ∧ deriveName fullName metaName email = nameSpec fullName metaName email
    ∧ deriveRole profileRole metaRole ≠ ""
    ∧ deriveName fullName metaName email ≠ "" := by
  refine ⟨?_, ?_, ?_, ?_⟩
  · cases profileRole with
    | some r => simp [deriveRole, jsOrStr, roleSpec, hpr r rfl]
    | none =>
      cases metaRole with
      | some m => simp [deriveRole, jsOrStr, roleSpec, hmr m rfl]
      | none => rfl
  · cases fullName with
    | some f => simp [deriveName, jsOrStr, nameSpec, hfn f rfl]
    | none =>
      cases metaName with
      | some m => simp [deriveName, jsOrStr, nameSpec, hmn m rfl]
      | none =>
        cases email with
        | some e => simp [deriveName, jsOrStr, nameSpec, hem e rfl]
        | none => rfl
  · exact jsOrStr_ne _ _ (jsOrStr_ne _ _ (by decide))
  · exact jsOrStr_ne _ _ (jsOrStr_ne _ _ (jsOrStr_ne _ _ (by decide)))

/-- Witness for C1 at concrete inputs. -/
theorem identity_derivation_precedence_witness :
    deriveRole (some "teacher") (some "student")
        = roleSpec (some "teacher") (some "student")
    ∧ deriveName (some "Alice A") (some "alice") (some "alice@example.com")
        = nameSpec (some "Alice A") (some "alice") (some "alice@example.com")
    ∧ deriveRole (some "teacher") (some "student") ≠ ""
    ∧ deriveName (some "Alice A") (some "alice") (some "alice@example.com")
        ≠ "" :=
  identity_derivation_precedence (some "teacher") (some "student")
    (some "Alice A") (some "alice") (some "alice@example.com")
    (by intro s h; simp at h; subst h; decide)
    (by intro s h; simp at h; subst h; decide)
    (by intro s h; simp at h; subst h; decide)
    (by intro s h; simp at h; subst h; decide)
    (by intro s h; simp at h; subst h; decide)

/-- C2 (code defect): the auth `useEffect` returns its cleanup from both the
`requestIdleCallback` branch and the `setTimeout` branch before the
`onAuthStateChange` subscription statement, so in every environment the
handler is never registered — even though the handler itself, had it been
registered, would commit `setCurrentUser(null)` and `setAuthMode('login')` on
every event with no session, as the claim states. -/
theorem auth_subscription_never_registered (hasIdle : Bool) (ev : String)
    (showConf : Bool) (ht ha pend : Option String) (prof : Option Profile)
    (thr : Bool) (now : Int) :
    (runEff (authEffectBody hasIdle)
        { scheduledInitialize := false, subscribed := false
          returned := false }).subscribed = false
    ∧ (runEff (authEffectBody hasIdle)
        { scheduledInitialize := false, subscribed := false
          returned := false }).scheduledInitialize = true
    ∧ onAuthStateChange ev none showConf ht ha pend prof thr now
        = [AuthWrite.setCurrentUser none, AuthWrite.setAuthMode "login"] := by
  refine ⟨?_, ?_, rfl⟩
  · cases hasIdle <;> rfl
  · cases hasIdle <;> rfl

/-- C5: Timeout and cancellation safety — a probe timeout (or probe error)
commits no state write, leaving the view awaiting authentication; and the
cancellation flag is decisive at every post-await checkpoint: if it is set at
the first or second checkpoint nothing is written, and if it is set at the
third checkpoint no identity object is ever committed. -/
theorem session_probe_timeout_and_cancellation_safety
    (ht ha : Option String) (probe : ProbeOutcome) (prof : Option Profile)
    (now : Int) (c1 c2 c3 : Bool) :
    (initializeAuth ht ha ProbeOutcome.timeout prof now c1 c2 c3).writes = []
    ∧ (initializeAuth ht ha probe prof now true c2 c3).writes = []
    ∧ (initializeAuth ht ha probe prof now c1 true c3).writes = []
    ∧ ((initializeAuth ht ha probe prof now c1 c2 true).writes.all
        (fun w => !w.isSetCurrentUser)) = true := by
  refine ⟨rfl, ?_, ?_, ?_⟩
  · cases probe <;> simp [initializeAuth]
  · cases probe with
    | timeout => rfl
    | resolved s => cases c1 <;> simp [initializeAuth]
  · cases probe with
    | timeout => rfl
    | resolved s =>
      cases c1 with
      | true => simp [initializeAuth]
      | false =>
        cases c2 with
        | true => simp [initializeAuth]
        | false =>
          cases s with
          | none => simp [initializeAuth]
          | some u =>
            simp only [initializeAuth, Bool.false_eq_true, if_false, if_true]
            split <;> rfl

/-- C6: Sign-out unconditional local clear — for every outcome of the remote
sign-out call (success, error result, thrown exception) the local state
afterwards has no current user and `authMode = login`; exactly the failing
outcomes produce a log entry, and none of them prevents the clear. -/
theorem signout_unconditional_local_clear (st : LocalAuthState)
    (r : SignOutResult) :
    (handleLogout st r).1.currentUser = none
    ∧ (handleLogout st r).1.authMode = "login"
    ∧ (handleLogout st r).2.isEmpty = decide (r = SignOutResult.ok) := by
  refine ⟨rfl, rfl, ?_⟩
  cases r <;> rfl

/-- C7: On the initial probe with a session present and no cancellation, a
matching confirmation marker (fragment `type=signup` or `type=email`, or
`email_confirmed_at` within the last 60 seconds) makes the reconciler show
the email-confirmation screen and clear the URL fragment without committing
any identity; with no matching marker it resolves the identity and commits
`Authenticated(user)`. -/
theorem initial_probe_confirmation_branch (ht ha : Option String)
    (u : SessionUser) (prof : Option Profile) (now : Int) :
    (initializeAuth ht ha (ProbeOutcome.resolved (some u)) prof now
        false false false).writes
      = (if confirmMarkerSpec ht u.emailConfirmedAt now then
          [AuthWrite.setShowEmailConfirmation true, AuthWrite.clearUrlHash]
        else
          [AuthWrite.setCurrentUser (some (resolveIdentity u prof))]) := by
  simp only [initializeAuth, confirmMarkerSpec, Bool.false_eq_true, if_false]
  split <;> rfl

/-- When no row holds the key, `saveProgressToDB` inserts, and the inserted
row becomes the key's only row. -/
theorem filter_save_fresh (db : ProgressDB) (u c l : String) (b : Bool)
    (s n : Nat)
    (hf : db.rows.filter (fun r => keyMatches r u c l) = []) :
    (saveProgressToDB db u c l b s n).rows.filter
        (fun r => keyMatches r u c l)
      = [{ id := db.nextId, user_id := u, course_id := c, lesson_id := l
           completed := b, score := s, updated_at := n }] := by
  have hsel : selectSingleId db u c l = none := by
    simp [selectSingleId, hf]
  simp [saveProgressToDB, hsel, List.filter_append, hf, keyMatches_new]

/-- When exactly one row holds the key, `saveProgressToDB` updates it in
place, and the updated row remains the key's only row. -/
theorem filter_save_single (db : ProgressDB) (u c l : String) (b : Bool)
    (s n : Nat) (r0 : DBRow)
    (hf : db.rows.filter (fun r => keyMatches r u c l) = [r0]) :
    (saveProgressToDB db u c l b s n).rows.filter
        (fun r => keyMatches r u c l)
      = [{ r0 with completed := b, score := s, updated_at := n }] := by
  have hsel : selectSingleId db u c l = some r0.id := by
    simp [selectSingleId, hf]
  simp only [saveProgressToDB, hsel]
  rw [filter_map_pres _ _ (fun r => keyMatches_save_update r r0.id b s n u c l),
    hf]
  simp

/-- C3: Progress upsert idempotence — starting from a store in which the
unique key `(user, c, l)` holds at most one row (the invariant the store's
unique constraint maintains), two sequential fully-completed
mark-lesson-complete writes with `completed = true` leave exactly one row for
the key, and that row has `completed = true`. -/
theorem progress_upsert_idempotent (db : ProgressDB) (u c l : String)
    (t1 t2 : Nat) (hk : countKey db u c l ≤ 1) :
    countKey
        (saveProgressToDB (saveProgressToDB db u c l true 0 t1) u c l true 0 t2)
        u c l = 1
    ∧ ∀ r ∈ (saveProgressToDB (saveProgressToDB db u c l true 0 t1)
          u c l true 0 t2).rows,
        keyMatches r u c l = true → r.completed = true := by
  cases hflt : db.rows.filter (fun r => keyMatches r u c l) with
  | nil =>
    have h1 := filter_save_fresh db u c l true 0 t1 hflt
    have h2 := filter_save_single (saveProgressToDB db u c l true 0 t1)
      u c l true 0 t2 _ h1
    refine ⟨by simp [countKey, h2], ?_⟩
    intro r hr hkey
    have hm : r ∈ (saveProgressToDB (saveProgressToDB db u c l true 0 t1)
        u c l true 0 t2).rows.filter (fun r => keyMatches r u c l) :=
      List.mem_filter.mpr ⟨hr, hkey⟩
    rw [h2, List.mem_singleton] at hm
    subst hm
    rfl
  | cons r0 tl =>
    cases tl with
    | nil =>
      have h1 := filter_save_single db u c l true 0 t1 r0 hflt
      have h2 := filter_save_single (saveProgressToDB db u c l true 0 t1)
        u c l true 0 t2 _ h1
      refine ⟨by simp [countKey, h2], ?_⟩
      intro r hr hkey
      have hm : r ∈ (saveProgressToDB (saveProgressToDB db u c l true 0 t1)
          u c l true 0 t2).rows.filter (fun r => keyMatches r u c l) :=
        List.mem_filter.mpr ⟨hr, hkey⟩
      rw [h2, List.mem_singleton] at hm
      subst hm
      rfl
    | cons r1 tl2 =>
      exfalso
      simp [countKey, hflt] at hk

/-- Witness for C3: two completed writes into an empty store leave exactly
one row for the key. -/
theorem progress_upsert_idempotent_witness :
    countKey
        (saveProgressToDB
          (saveProgressToDB { nextId := 0, rows := [] } "u1" "c1" "l1" true 0 5)
          "u1" "c1" "l1" true 0 9)
        "u1" "c1" "l1" = 1 :=
  (progress_upsert_idempotent { nextId := 0, rows := [] } "u1" "c1" "l1" 5 9
    (by decide)).1

/-- Reading back a key just written by the JS object-spread update. -/
theorem lookupProgress_setLocal (p : StudentProgress) (c l : String)
    (v : PVal) :
    lookupProgress (setLocalProgress p c l v) c l = some v := by
  simp [lookupProgress, setLocalProgress, setAssoc, List.lookup]

/-- C4: Quiz scoring — the submitted score equals the rational round of
`100 * correctCount / totalQuestions`; a question is counted exactly when its
recorded answer equals its correct-option index, an unanswered question never
counting; and on the spec's 4-question example with correct indices
`[0,1,2,3]`, answers `[0,1,2,3]` score 100 and answers `[0,0,0,0]` score 25. -/
theorem quiz_scoring (p : StudentProgress) (db : ProgressDB) (u cId : String)
    (lesson : Lesson) (quiz : Quiz) (ans : Answers) (now : Nat) (fails : Bool)
    (hq : lesson.quizData = some quiz) (hne : quiz.questions ≠ []) :
    (∃ res, handleQuizSubmit p db u cId lesson ans now fails = some res
      ∧ (res.quizScore : ℤ)
          = round ((100 * (correctCount ans quiz.questions : ℚ))
              / (quiz.questions.length : ℚ)))
    ∧ correctCount ans quiz.questions = correctCountSpec ans quiz.questions
    ∧ ((handleQuizSubmit [] { nextId := 0, rows := [] } "u" "c"
          { id := "lq", type := "quiz", quizData := some quiz4 }
          [("q1", 0), ("q2", 1), ("q3", 2), ("q4", 3)] 0 false).map
        QuizSubmitResult.quizScore = some 100)
    ∧ ((handleQuizSubmit [] { nextId := 0, rows := [] } "u" "c"
          { id := "lq", type := "quiz", quizData := some quiz4 }
          [("q1", 0), ("q2", 0), ("q3", 0), ("q4", 0)] 0 false).map
        QuizSubmitResult.quizScore = some 25) := by
  have hlen : quiz.questions.length ≠ 0 := by
    simpa [List.length_eq_zero] using hne
  refine ⟨?_, ?_, by decide, by decide⟩
  · simp only [handleQuizSubmit, hq]
    exact ⟨_, rfl, jsRound100_eq_round (correctCount ans quiz.questions)
      quiz.questions.length hlen⟩
  · unfold correctCount correctCountSpec
    congr 1
    apply List.filter_congr
    intro q _
    cases h : ans.lookup q.id <;> simp [h]

/-- Witness for C4 on the spec's own example. -/
theorem quiz_scoring_witness :
    (∃ res, handleQuizSubmit [] { nextId := 0, rows := [] } "u" "c"
        { id := "lq", type := "quiz", quizData := some quiz4 }
        [("q1", 0), ("q2", 1), ("q3", 2), ("q4", 3)] 0 false = some res
      ∧ (res.quizScore : ℤ)
          = round ((100 * (correctCount [("q1", 0), ("q2", 1), ("q3", 2), ("q4", 3)]
                quiz4.questions : ℚ))
              / (quiz4.questions.length : ℚ)))
    ∧ correctCount [("q1", 0), ("q2", 1), ("q3", 2), ("q4", 3)] quiz4.questions
        = correctCountSpec [("q1", 0), ("q2", 1), ("q3", 2), ("q4", 3)]
            quiz4.questions
    ∧ ((handleQuizSubmit [] { nextId := 0, rows := [] } "u" "c"
          { id := "lq", type := "quiz", quizData := some quiz4 }
          [("q1", 0), ("q2", 1), ("q3", 2), ("q4", 3)] 0 false).map
        QuizSubmitResult.quizScore = some 100)
    ∧ ((handleQuizSubmit [] { nextId := 0, rows := [] } "u" "c"
          { id := "lq", type := "quiz", quizData := some quiz4 }
          [("q1", 0), ("q2", 0), ("q3", 0), ("q4", 0)] 0 false).map
        QuizSubmitResult.quizScore = some 25) :=
  quiz_scoring [] { nextId := 0, rows := [] } "u" "c"
    { id := "lq", type := "quiz", quizData := some quiz4 } quiz4
    [("q1", 0), ("q2", 1), ("q3", 2), ("q4", 3)] 0 false rfl (by decide)

/-- C8: Aggregate completion percentage — for a course with at least one
lesson the displayed percentage is the rational round of
`100 * completedLessonCount / totalLessonCount` over the lesson list
intersected with local progress, and for a course with zero lessons it is 0,
not an error or NaN. -/
theorem aggregate_completion_percent (course : Course) (p : StudentProgress) :
    (course.lessons.length ≠ 0 →
      (progressPercent course p : ℤ)
        = round ((100 * (completedLessons course p : ℚ))
            / (course.lessons.length : ℚ)))
    ∧ (course.lessons = [] → progressPercent course p = 0) := by
  constructor
  · intro h
    have hpos : course.lessons.length > 0 := Nat.pos_of_ne_zero h
    rw [progressPercent, if_pos hpos]
    exact jsRound100_eq_round (completedLessons course p)
      course.lessons.length h
  · intro h
    simp [progressPercent, h]

/-- Witness for C8: a one-lesson course with that lesson completed shows 100,
and a zero-lesson course shows 0. -/
theorem aggregate_completion_percent_witness :
    (progressPercent
        (Course.mk "c1" [{ id := "l1", type := "video", quizData := none }])
        [("c1", [("l1", PVal.bool true)])] : ℤ)
      = round ((100 * (completedLessons
            (Course.mk "c1" [{ id := "l1", type := "video", quizData := none }])
            [("c1", [("l1", PVal.bool true)])] : ℚ))
          / ((Course.mk "c1"
              [{ id := "l1", type := "video", quizData := none }]).lessons.length : ℚ))
    ∧ progressPercent (Course.mk "c0" [])
        [("c1", [("l1", PVal.bool true)])] = 0 :=
  ⟨(aggregate_completion_percent
      (Course.mk "c1" [{ id := "l1", type := "video", quizData := none }])
      [("c1", [("l1", PVal.bool true)])]).1 (by decide),
   (aggregate_completion_percent (Course.mk "c0" [])
      [("c1", [("l1", PVal.bool true)])]).2 rfl⟩

/-- C9: No rollback on write failure — for both progress mutations the local
optimistic update is what the local state holds afterwards, for every remote
outcome; and a failed remote write leaves the store untouched and only adds a
log entry. -/
theorem no_rollback_on_write_failure (p : StudentProgress) (db : ProgressDB)
    (u c : String) (lessonId : String) (now : Nat) (fails : Bool)
    (lesson : Lesson) (quiz : Quiz) (ans : Answers)
    (hq : lesson.quizData = some quiz) :
    (toggleComplete p db u c lessonId now fails).1
      = setLocalProgress p c lessonId
          (PVal.bool (!pvalTruthy (lookupProgress p c lessonId)))
    ∧ (toggleComplete p db u c lessonId now true).2.1 = db
    ∧ (toggleComplete p db u c lessonId now true).2.2
        = ["Error saving progress"]
    ∧ (∃ res, handleQuizSubmit p db u c lesson ans now fails = some res
        ∧ res.progress = setLocalProgress p c lesson.id
            (PVal.num (jsRound100 (correctCount ans quiz.questions)
              quiz.questions.length)))
    ∧ (∃ res, handleQuizSubmit p db u c lesson ans now true = some res
        ∧ res.db = db ∧ res.logs = ["Error saving progress"]) := by
  refine ⟨rfl, rfl, rfl, ?_, ?_⟩
  · simp only [handleQuizSubmit, hq]
    exact ⟨_, rfl, rfl⟩
  · simp only [handleQuizSubmit, hq]
    exact ⟨_, rfl, rfl, rfl⟩

/-- Witness for C9 on concrete inputs. -/
theorem no_rollback_on_write_failure_witness :
    (toggleComplete [] { nextId := 0, rows := [] } "u" "c" "l1" 3 true).1
      = setLocalProgress [] "c" "l1"
          (PVal.bool (!pvalTruthy (lookupProgress [] "c" "l1")))
    ∧ (toggleComplete [] { nextId := 0, rows := [] } "u" "c" "l1" 3 true).2.1
        = { nextId := 0, rows := [] }
    ∧ (toggleComplete [] { nextId := 0, rows := [] } "u" "c" "l1" 3 true).2.2
        = ["Error saving progress"]
    ∧ (∃ res, handleQuizSubmit [] { nextId := 0, rows := [] } "u" "c"
          { id := "lq", type := "quiz", quizData := some quiz4 }
          [("q1", 0)] 3 true = some res
        ∧ res.progress = setLocalProgress [] "c"
            ({ id := "lq", type := "quiz", quizData := some quiz4 } : Lesson).id
            (PVal.num (jsRound100 (correctCount [("q1", 0)] quiz4.questions)
              quiz4.questions.length)))
    ∧ (∃ res, handleQuizSubmit [] { nextId := 0, rows := [] } "u" "c"
          { id := "lq", type := "quiz", quizData := some quiz4 }
          [("q1", 0)] 3 true = some res
        ∧ res.db = { nextId := 0, rows := [] }
        ∧ res.logs = ["Error saving progress"]) :=
  no_rollback_on_write_failure [] { nextId := 0, rows := [] } "u" "c" "l1" 3
    true { id := "lq", type := "quiz", quizData := some quiz4 } quiz4
    [("q1", 0)] rfl

/-- C10: Zero-score quiz divergence — submitting a quiz with every answer
wrong stores the number 0 in the local progress map (which every truthiness
completion check treats as not completed) while writing a remote row with
`completed = true` and `score = 0`; reloading maps that row back to the
boolean `true`, which the same checks treat as completed. -/
theorem zero_score_quiz_divergence (p : StudentProgress) (db : ProgressDB)
    (u c : String) (lesson : Lesson) (quiz : Quiz) (ans : Answers) (now : Nat)
    (hq : lesson.quizData = some quiz) (hne : quiz.questions ≠ [])
    (hwrong : correctCount ans quiz.questions = 0)
    (hfresh : db.rows.filter (fun r => keyMatches r u c lesson.id) = []) :
    ∃ res, handleQuizSubmit p db u c lesson ans now false = some res
      ∧ res.quizScore = 0
      ∧ lookupProgress res.progress c lesson.id = some (PVal.num 0)
      ∧ pvalTruthy (lookupProgress res.progress c lesson.id) = false
      ∧ res.db.rows = db.rows ++
          [{ id := db.nextId, user_id := u, course_id := c
             lesson_id := lesson.id, completed := true, score := 0
             updated_at := now }]
      ∧ fetchRowValue
          { id := db.nextId, user_id := u, course_id := c
            lesson_id := lesson.id, completed := true, score := 0
            updated_at := now } = PVal.bool true
      ∧ lookupProgress
          (fetchUserDataProgress
            [{ id := db.nextId, user_id := u, course_id := c
               lesson_id := lesson.id, completed := true, score := 0
               updated_at := now }]) c lesson.id = some (PVal.bool true)
      ∧ pvalTruthy (some (PVal.bool true)) = true := by
  have hpos : 0 < quiz.questions.length :=
    Nat.pos_of_ne_zero (by simpa [List.length_eq_zero] using hne)
  have hscore : jsRound100 (correctCount ans quiz.questions)
      quiz.questions.length = 0 := by
    rw [hwrong]
    unfold jsRound100
    rw [Nat.mul_zero, Nat.zero_add]
    exact Nat.div_eq_of_lt (by omega)
  have hsel : selectSingleId db u c lesson.id = none := by
    simp [selectSingleId, hfresh]
  simp only [handleQuizSubmit, hq, hscore, saveProgressFallible,
    if_neg Bool.false_ne_true, saveProgressToDB, hsel]
  refine ⟨_, rfl, rfl, ?_, ?_, rfl, rfl, ?_, rfl⟩
  · exact lookupProgress_setLocal p c lesson.id (PVal.num 0)
  · rw [lookupProgress_setLocal]
    rfl
  · simp only [fetchUserDataProgress, List.foldl, fetchRowValue]
    rw [if_neg (by omega)]
    exact lookupProgress_setLocal [] c lesson.id (PVal.bool true)

/-- Witness for C10: a one-question quiz answered wrongly, fresh store. -/
theorem zero_score_quiz_divergence_witness :
    ∃ res, handleQuizSubmit [] { nextId := 0, rows := [] } "u" "c"
        { id := "lq", type := "quiz", quizData := some quiz4 }
        [("q1", 1), ("q2", 0), ("q3", 0), ("q4", 0)] 7 false = some res
      ∧ res.quizScore = 0
      ∧ lookupProgress res.progress "c"
          ({ id := "lq", type := "quiz", quizData := some quiz4 } : Lesson).id
          = some (PVal.num 0)
      ∧ pvalTruthy (lookupProgress res.progress "c"
          ({ id := "lq", type := "quiz", quizData := some quiz4 } : Lesson).id)
          = false
      ∧ res.db.rows = ({ nextId := 0, rows := [] } : ProgressDB).rows ++
          [{ id := 0, user_id := "u", course_id := "c", lesson_id := "lq"
             completed := true, score := 0, updated_at := 7 }]
      ∧ fetchRowValue
          { id := 0, user_id := "u", course_id := "c", lesson_id := "lq"
            completed := true, score := 0, updated_at := 7 } = PVal.bool true
      ∧ lookupProgress
          (fetchUserDataProgress
            [{ id := 0, user_id := "u", course_id := "c", lesson_id := "lq"
               completed := true, score := 0, updated_at := 7 }]) "c" "lq"
          = some (PVal.bool true)
      ∧ pvalTruthy (some (PVal.bool true)) = true :=
  zero_score_quiz_divergence [] { nextId := 0, rows := [] } "u" "c"
    { id := "lq", type := "quiz", quizData := some quiz4 } quiz4
    [("q1", 1), ("q2", 0), ("q3", 0), ("q4", 0)] 7 rfl (by decide) (by decide)
    (by decide)

end CED
